import Mathlib

/-!
Verification development for the homeserver_rust telemetry service.

Shallow embedding of the persistence / aggregation core:
 - `src/history_repo/blob.rs` (version-prefix blob codec),
 - `src/history_repo/aggregation.rs` (bucket aggregation),
 - `src/history_repo/mod.rs` (SQLite history repository, modelled as pure
   operations over an explicit database state),
 - `src/aggregation_worker.rs` (`run_one_tick`),
 - `src/worker.rs` (history writer `flush_buffer` / `save_snapshots` batching).

Modelling conventions:
 - Rust `f64` scalars are modelled as exact rationals (`ℚ`); IEEE-754
   rounding, NaN and infinities are not modelled.  `f64::min` / `f64::max`
   folds started at `±INFINITY` are modelled by folding from the list head,
   which coincides with the source on the non-empty lists these folds are
   applied to.
 - Rust machine integers are modelled as `Nat` (`u8`/`u32`/`u64`) and `Int`
   (`i32`/`i64`).  The defined-wrapping `as` casts between `u64` and `i64`
   are modelled explicitly by `wrap_u64_to_i64` / `wrap_i64_to_u64`;
   intermediate arithmetic (sums) is modelled unbounded, since arithmetic
   overflow is a Rust program error (panic in debug builds).
 - Rust `i64` division (`/`, truncating toward zero) is `Int.tdiv`.
 - The external `wincode` serializer is an opaque collaborator of the
   repository; it is modelled as an explicit `Codec` record of fallible
   encode/decode functions passed to every operation that serializes.
 - SQL tables are lists of row records in insertion (rowid) order; a
   `SELECT ... ORDER BY` is modelled by an insertion sort on the key, and
   `DELETE ... WHERE` by `List.filter`.
-/

/-- Interpret a `u64` value as Rust's `as i64` cast (two's-complement wrap).
The numerals are `2 ^ 63` and `2 ^ 64`, written out so that the definition
reduces without unfolding power instances. -/
def wrap_u64_to_i64 (n : Nat) : Int :=
  (((n : Int) + 9223372036854775808) % 18446744073709551616) - 9223372036854775808

/-- Interpret an `i64` value as Rust's `as u64` cast (two's-complement wrap);
the numeral is `2 ^ 64`. -/
def wrap_i64_to_u64 (x : Int) : Nat :=
  (x % 18446744073709551616).toNat

/-- Docker container state (`models.rs` `ContainerState`). -/
inductive ContainerState where
  | running
  | exited
  | paused
  | restarting
  | unknown
deriving DecidableEq

/-- Per-container statistics (`models.rs` `ContainerStats`, full field set as
constructed by `docker_repo/stats.rs` and consumed by
`history_repo/aggregation.rs`). -/
structure ContainerStats where
  id : String
  name : String
  cpu_percent : ℚ
  cpu_kernel_percent : ℚ
  cpu_user_percent : ℚ
  online_cpus : Nat
  memory_usage_bytes : Nat
  memory_limit_bytes : Nat
  state : ContainerState
  network_rx_bytes : Nat
  network_tx_bytes : Nat
  network_rx_packets : Nat
  network_tx_packets : Nat
  network_rx_errors : Nat
  network_tx_errors : Nat
  network_rx_dropped : Nat
  network_tx_dropped : Nat
  block_read_bytes : Nat
  block_write_bytes : Nat
  block_read_ops : Nat
  block_write_ops : Nat
  pids : Nat
  pids_limit : Nat
  cpu_throttled : Bool
  cpu_throttled_periods : Nat
  cpu_throttled_time_ns : Nat
  memory_max_usage_bytes : Nat
deriving DecidableEq

/-- CPU sample (`models.rs` `CpuStats`). -/
structure CpuStats where
  model : String
  physical_cores : Nat
  logical_cores : Nat
  usage_percent : ℚ
  temperature : ℚ
deriving DecidableEq

/-- RAM sample (`models.rs` `RamStats`). -/
structure RamStats where
  total : Nat
  used : Nat
  available : Nat
  usage_percent : ℚ
deriving DecidableEq

/-- Static system identity (`models.rs` `SystemInfo`). -/
structure SystemInfo where
  os_family : String
  os_manufacturer : String
  os_version : String
  system_manufacturer : String
  system_model : String
  processor_name : String
deriving DecidableEq

/-- Dynamic-only system metrics (`models.rs` `SystemStatsDynamic`). -/
structure SystemStatsDynamic where
  uptime_secs : Nat
  process_count : Nat
  thread_count : Nat
  cpu_voltage : ℚ
  fan_speeds : List Nat
deriving DecidableEq

/-- Legacy full system metrics (`models.rs` `SystemStats`), still readable
from v1 `system_data` blobs. -/
structure SystemStats where
  os_family : String
  os_manufacturer : String
  os_version : String
  system_manufacturer : String
  system_model : String
  processor_name : String
  uptime_secs : Nat
  process_count : Nat
  thread_count : Nat
  cpu_voltage : ℚ
  fan_speeds : List Nat
deriving DecidableEq

/-- Partition usage sample (`models.rs` `PartitionStat`). -/
structure PartitionStat where
  mount : String
  name : String
  type_ : String
  total_space : Nat
  used_space : Nat
  available_space : Nat
  usage_percent : ℚ
deriving DecidableEq

/-- Disk device sample (`models.rs` `DiskDeviceStat`). -/
structure DiskDeviceStat where
  name : String
  model : String
  size : Nat
  read_bytes : Nat
  write_bytes : Nat
  transfer_time_ms : Nat
deriving DecidableEq

/-- Storage sample (`models.rs` `StorageStats`). -/
structure StorageStats where
  partitions : List PartitionStat
  disks : List DiskDeviceStat
deriving DecidableEq

/-- Network interface sample (`models.rs` `InterfaceStat`). -/
structure InterfaceStat where
  name : String
  display_name : String
  mac_address : String
  ipv4 : List String
  ipv6 : List String
  bytes_sent : Nat
  bytes_recv : Nat
  packets_sent : Nat
  packets_recv : Nat
  speed : Nat
  received_bytes_per_sec : ℚ
  transmitted_bytes_per_sec : ℚ
  is_up : Bool
deriving DecidableEq

/-- Network sample (`models.rs` `NetworkStats`). -/
structure NetworkStats where
  interfaces : List InterfaceStat
deriving DecidableEq

/-- One raw snapshot (`models.rs` `FullSystemSnapshot`); `timestamp` is `u64`
milliseconds since epoch. -/
structure FullSystemSnapshot where
  timestamp : Nat
  cpu : CpuStats
  ram : RamStats
  containers : List ContainerStats
  storage : StorageStats
  network : NetworkStats
  system : SystemStatsDynamic
deriving DecidableEq

/-- One aggregated bucket row (`models.rs` `AggregatedSnapshot`);
`created_at` is `i64`, `resolution_seconds` is `i32`. -/
structure AggregatedSnapshot where
  created_at : Int
  resolution_seconds : Int
  cpu_load_avg : ℚ
  cpu_load_min : ℚ
  cpu_load_max : ℚ
  memory_used_avg : Int
  memory_used_min : Int
  memory_used_max : Int
  containers : List ContainerStats
  storage : StorageStats
  network : NetworkStats
  system : SystemStatsDynamic
deriving DecidableEq

/-- Blob version tag for container/storage/network columns
(`blob.rs` `BLOB_VERSION`). -/
def BLOB_VERSION : Nat := 1

/-- Blob version tag for the dynamic-only `system_data` column
(`blob.rs` `BLOB_VERSION_SYSTEM_DYNAMIC`). -/
def BLOB_VERSION_SYSTEM_DYNAMIC : Nat := 2

/-- Models `blob.rs` `with_version_prefix`: emit `[version_byte][payload]`. -/
def with_version_byte (version : Nat) (payload : List Nat) : List Nat :=
  version :: payload

/-- Models `blob.rs` `blob_payload`: the payload after the version byte.
If the first byte matches `expected_version`, return the rest; otherwise the
blob is legacy and is returned whole (the empty blob is returned whole). -/
def blob_payload (bytes : List Nat) (expected_version : Nat) : List Nat :=
  match bytes with
  | [] => bytes
  | b :: rest => if b = expected_version then rest else bytes

/-- Models `blob.rs` `blob_version`: first byte, or 0 for the empty blob. -/
def blob_version (bytes : List Nat) : Nat :=
  match bytes with
  | [] => 0
  | b :: _ => b

/-- The external `wincode` codec used by the repository, as an explicit
record of fallible serialize/deserialize functions (`None` models a
`wincode` error `Result`). -/
structure Codec where
  encContainers : List ContainerStats → Option (List Nat)
  encStorage : StorageStats → Option (List Nat)
  encNetwork : NetworkStats → Option (List Nat)
  encSystemDynamic : SystemStatsDynamic → Option (List Nat)
  encSystemInfo : SystemInfo → Option (List Nat)
  decContainers : List Nat → Option (List ContainerStats)
  decStorage : List Nat → Option StorageStats
  decNetwork : List Nat → Option NetworkStats
  decSystemDynamic : List Nat → Option SystemStatsDynamic
  decSystemFull : List Nat → Option SystemStats
  decSystemInfo : List Nat → Option SystemInfo

/-- One row of the `system_history` table (`history_repo/mod.rs` schema). -/
structure RawRow where
  created_at : Int
  cpu_load : ℚ
  memory_used : Int
  container_data : List Nat
  storage_data : List Nat
  network_data : List Nat
  system_data : List Nat
deriving DecidableEq

/-- One row of the `system_history_aggregated` table
(`history_repo/aggregation.rs` schema). -/
structure AggRow where
  created_at : Int
  resolution_seconds : Int
  cpu_load_avg : ℚ
  cpu_load_min : ℚ
  cpu_load_max : ℚ
  memory_used_avg : Int
  memory_used_min : Int
  memory_used_max : Int
  container_data : List Nat
  storage_data : List Nat
  network_data : List Nat
  system_data : List Nat
deriving DecidableEq

/-- The SQLite database state: the two history tables (lists in rowid /
insertion order) and the singleton `system_info` blob. -/
structure Db where
  raw : List RawRow
  agg : List AggRow
  system_info : Option (List Nat)
deriving DecidableEq

/-- Insert into a list sorted by `key` (helper for `sort_by_key`). -/
def insertByKey {α β : Type} [LinearOrder β] (key : α → β) (a : α) : List α → List α
  | [] => [a]
  | b :: bs => if key a ≤ key b then a :: b :: bs else b :: insertByKey key a bs

/-- Models a sort ascending by `key` (Rust `sort_by_key` / SQL
`ORDER BY key ASC`): insertion sort. -/
def sortByKey {α β : Type} [LinearOrder β] (key : α → β) (l : List α) : List α :=
  l.foldr (insertByKey key) []

/-- Models `aggregation.rs` `mean_f64`: `sum / len`, 0 on the empty list. -/
def mean_f64 (v : List ℚ) : ℚ :=
  if v.isEmpty then 0 else v.sum / (v.length : ℚ)

/-- Models `aggregation.rs` `mean_i64`: truncating `i64` division
`sum / len`, 0 on the empty list. -/
def mean_i64 (v : List Int) : Int :=
  if v.isEmpty then 0 else Int.tdiv v.sum (v.length : Int)

/-- Models `aggregation.rs` `mean_u64`: truncating `u64` division
`sum / len`, 0 on the empty list. -/
def mean_u64 (v : List Nat) : Nat :=
  if v.isEmpty then 0 else v.sum / v.length

/-- Models `v.iter().copied().fold(f64::INFINITY, f64::min)` on the non-empty
lists it is applied to (folding from the head; the source's `+∞` seed is
absorbed by the first element). -/
def fold_min_q : List ℚ → ℚ
  | [] => 0
  | x :: xs => xs.foldl min x

/-- Models `v.iter().copied().fold(f64::NEG_INFINITY, f64::max)` on the
non-empty lists it is applied to. -/
def fold_max_q : List ℚ → ℚ
  | [] => 0
  | x :: xs => xs.foldl max x

/-- Models `v.iter().min().unwrap_or(0)` on `i64` values. -/
def list_min_int : List Int → Int
  | [] => 0
  | x :: xs => xs.foldl min x

/-- Models `v.iter().max().unwrap_or(0)` on `i64` values. -/
def list_max_int : List Int → Int
  | [] => 0
  | x :: xs => xs.foldl max x

/-- Models `aggregation.rs` `aggregate_one_container`: gauges are averaged,
counters are summed, identity comes from the first observation and
last-observation fields from the last. Callers pass non-empty groups; the
empty group returns the aggregate of a default and never arises. -/
def aggregate_one_container (refs : List ContainerStats) (first last : ContainerStats) :
    ContainerStats :=
  { id := first.id
    name := first.name
    cpu_percent := mean_f64 (refs.map (·.cpu_percent))
    cpu_kernel_percent := mean_f64 (refs.map (·.cpu_kernel_percent))
    cpu_user_percent := mean_f64 (refs.map (·.cpu_user_percent))
    online_cpus := last.online_cpus
    memory_usage_bytes := mean_u64 (refs.map (·.memory_usage_bytes))
    memory_limit_bytes := mean_u64 (refs.map (·.memory_limit_bytes))
    state := last.state
    network_rx_bytes := (refs.map (·.network_rx_bytes)).sum
    network_tx_bytes := (refs.map (·.network_tx_bytes)).sum
    network_rx_packets := (refs.map (·.network_rx_packets)).sum
    network_tx_packets := (refs.map (·.network_tx_packets)).sum
    network_rx_errors := last.network_rx_errors
    network_tx_errors := last.network_tx_errors
    network_rx_dropped := last.network_rx_dropped
    network_tx_dropped := last.network_tx_dropped
    block_read_bytes := (refs.map (·.block_read_bytes)).sum
    block_write_bytes := (refs.map (·.block_write_bytes)).sum
    block_read_ops := last.block_read_ops
    block_write_ops := last.block_write_ops
    pids := last.pids
    pids_limit := last.pids_limit
    cpu_throttled := last.cpu_throttled
    cpu_throttled_periods := (refs.map (·.cpu_throttled_periods)).sum
    cpu_throttled_time_ns := (refs.map (·.cpu_throttled_time_ns)).sum
    memory_max_usage_bytes := last.memory_max_usage_bytes }

/-- Group container observations by container `id`. The source uses a
`HashMap` keyed by `id`; the model keeps groups in first-occurrence order
(the callers sort the aggregated output by `name`, so the map's iteration
order is not observable up to ties in `name`). -/
def groupContainersById (css : List ContainerStats) :
    List (String × List ContainerStats) :=
  css.foldl
    (fun acc c =>
      if acc.any (fun kv => kv.1 = c.id) then
        acc.map (fun kv => if kv.1 = c.id then (kv.1, kv.2 ++ [c]) else kv)
      else acc ++ [(c.id, [c])])
    []

/-- Aggregate each `id`-group and sort the output by container `name`
(shared body of `aggregate_containers` and
`aggregate_containers_from_aggregated`). -/
def aggregateContainerGroups (css : List ContainerStats) : List ContainerStats :=
  sortByKey (fun c => c.name)
    ((groupContainersById css).filterMap
      (fun kv =>
        match kv.2 with
        | [] => none
        | first :: rest =>
          some (aggregate_one_container (first :: rest) first
            ((first :: rest).getLast (List.cons_ne_nil first rest)))))

/-- Models `aggregation.rs` `aggregate_containers`: group the containers of
a bucket of raw snapshots by `id`, aggregate each group, sort by `name`. -/
def aggregate_containers (snapshots : List FullSystemSnapshot) : List ContainerStats :=
  aggregateContainerGroups (snapshots.flatMap (·.containers))

/-- Models `aggregation.rs` `aggregate_containers_from_aggregated`. -/
def aggregate_containers_from_aggregated (aggs : List AggregatedSnapshot) :
    List ContainerStats :=
  aggregateContainerGroups (aggs.flatMap (·.containers))

/-- Models `aggregation.rs` `aggregate_snapshots`: aggregate a bucket of raw
snapshots into one `AggregatedSnapshot` (`None` on the empty bucket). -/
def aggregate_snapshots (snapshots : List FullSystemSnapshot)
    (bucket_start_ts : Int) (resolution_seconds : Int) : Option AggregatedSnapshot :=
  match snapshots with
  | [] => none
  | s0 :: rest =>
    let all := s0 :: rest
    let cpu_loads := all.map (fun s => s.cpu.usage_percent)
    let memory_used := all.map (fun s => wrap_u64_to_i64 s.ram.used)
    let last := all.getLast (List.cons_ne_nil s0 rest)
    some
      { created_at := bucket_start_ts
        resolution_seconds := resolution_seconds
        cpu_load_avg := mean_f64 cpu_loads
        cpu_load_min := fold_min_q cpu_loads
        cpu_load_max := fold_max_q cpu_loads
        memory_used_avg := mean_i64 memory_used
        memory_used_min := list_min_int memory_used
        memory_used_max := list_max_int memory_used
        containers := aggregate_containers all
        storage := last.storage
        network := last.network
        system := last.system }

/-- Models `aggregation.rs` `aggregate_aggregated_snapshots`: roll a bucket
of 1-min aggregates into one coarser `AggregatedSnapshot`. -/
def aggregate_aggregated_snapshots (aggs : List AggregatedSnapshot)
    (bucket_start_ts : Int) (resolution_seconds : Int) : Option AggregatedSnapshot :=
  match aggs with
  | [] => none
  | a0 :: rest =>
    let all := a0 :: rest
    let last := all.getLast (List.cons_ne_nil a0 rest)
    some
      { created_at := bucket_start_ts
        resolution_seconds := resolution_seconds
        cpu_load_avg := mean_f64 (all.map (fun a => a.cpu_load_avg))
        cpu_load_min := fold_min_q (all.map (fun a => a.cpu_load_min))
        cpu_load_max := fold_max_q (all.map (fun a => a.cpu_load_max))
        memory_used_avg := mean_i64 (all.map (fun a => a.memory_used_avg))
        memory_used_min := list_min_int (all.map (fun a => a.memory_used_min))
        memory_used_max := list_max_int (all.map (fun a => a.memory_used_max))
        containers := aggregate_containers_from_aggregated all
        storage := last.storage
        network := last.network
        system := last.system }

/-- Default `SystemStatsDynamic` substituted on a `system_data` decode
failure (`history_repo/mod.rs`). -/
def defaultSystemDynamic : SystemStatsDynamic :=
  { uptime_secs := 0, process_count := 0, thread_count := 0
    cpu_voltage := 0, fan_speeds := [] }

/-- Models `history_repo/mod.rs` `deserialize_container_data`: on a
legacy/corrupt blob return the empty list. -/
def deserialize_container_data (c : Codec) (bytes : List Nat) : List ContainerStats :=
  (c.decContainers (blob_payload bytes BLOB_VERSION)).getD []

/-- Models `history_repo/mod.rs` `deserialize_storage_data`. -/
def deserialize_storage_data (c : Codec) (bytes : List Nat) : StorageStats :=
  (c.decStorage (blob_payload bytes BLOB_VERSION)).getD
    { partitions := [], disks := [] }

/-- Models `history_repo/mod.rs` `deserialize_network_data`. -/
def deserialize_network_data (c : Codec) (bytes : List Nat) : NetworkStats :=
  (c.decNetwork (blob_payload bytes BLOB_VERSION)).getD { interfaces := [] }

/-- Models `history_repo/mod.rs` `HistoryRepo::parse_snapshot_row`: rebuild a
`FullSystemSnapshot` from a `system_history` row. Only `timestamp`,
`cpu.usage_percent`, `ram.used` and the blob columns carry stored data; the
remaining scalar fields are filled with defaults. -/
def parse_snapshot_row (c : Codec) (row : RawRow) : FullSystemSnapshot :=
  { timestamp := wrap_i64_to_u64 row.created_at
    cpu :=
      { model := "", physical_cores := 0, logical_cores := 0
        usage_percent := row.cpu_load, temperature := 0 }
    ram :=
      { total := 0, used := wrap_i64_to_u64 row.memory_used
        available := 0, usage_percent := 0 }
    containers := deserialize_container_data c row.container_data
    storage := deserialize_storage_data c row.storage_data
    network := deserialize_network_data c row.network_data
    system :=
      if blob_version row.system_data = BLOB_VERSION_SYSTEM_DYNAMIC then
        (c.decSystemDynamic
          (blob_payload row.system_data BLOB_VERSION_SYSTEM_DYNAMIC)).getD
          defaultSystemDynamic
      else
        match c.decSystemFull (blob_payload row.system_data BLOB_VERSION) with
        | some full =>
          { uptime_secs := full.uptime_secs
            process_count := full.process_count
            thread_count := full.thread_count
            cpu_voltage := full.cpu_voltage
            fan_speeds := full.fan_speeds }
        | none => defaultSystemDynamic }

/-- Models `history_repo/mod.rs` `HistoryRepo::parse_aggregated_row`. -/
def parse_aggregated_row (c : Codec) (row : AggRow) : AggregatedSnapshot :=
  { created_at := row.created_at
    resolution_seconds := row.resolution_seconds
    cpu_load_avg := row.cpu_load_avg
    cpu_load_min := row.cpu_load_min
    cpu_load_max := row.cpu_load_max
    memory_used_avg := row.memory_used_avg
    memory_used_min := row.memory_used_min
    memory_used_max := row.memory_used_max
    containers := deserialize_container_data c row.container_data
    storage := deserialize_storage_data c row.storage_data
    network := deserialize_network_data c row.network_data
    system :=
      (c.decSystemDynamic
        (blob_payload row.system_data BLOB_VERSION_SYSTEM_DYNAMIC)).getD
        defaultSystemDynamic }

/-- Models `history_repo/mod.rs` `aggregated_to_snapshot`: project an
aggregated row to a `FullSystemSnapshot` whose `timestamp` is `created_at`
and whose CPU/RAM scalars are the bucket averages. -/
def aggregated_to_snapshot (agg : AggregatedSnapshot) : FullSystemSnapshot :=
  { timestamp := wrap_i64_to_u64 agg.created_at
    cpu :=
      { model := "", physical_cores := 0, logical_cores := 0
        usage_percent := agg.cpu_load_avg, temperature := 0 }
    ram :=
      { total := 0, used := wrap_i64_to_u64 agg.memory_used_avg
        available := 0, usage_percent := 0 }
    containers := agg.containers
    storage := agg.storage
    network := agg.network
    system := agg.system }

/-- Encode one snapshot into a `system_history` row
(the body of the insert loop of `HistoryRepo::save_snapshots`);
`None` models a `wincode` serialize error. -/
def encode_snapshot_row (c : Codec) (s : FullSystemSnapshot) : Option RawRow := do
  let container_data := with_version_byte BLOB_VERSION (← c.encContainers s.containers)
  let storage_data := with_version_byte BLOB_VERSION (← c.encStorage s.storage)
  let network_data := with_version_byte BLOB_VERSION (← c.encNetwork s.network)
  let system_data :=
    with_version_byte BLOB_VERSION_SYSTEM_DYNAMIC (← c.encSystemDynamic s.system)
  some
    { created_at := wrap_u64_to_i64 s.timestamp
      cpu_load := s.cpu.usage_percent
      memory_used := wrap_u64_to_i64 s.ram.used
      container_data := container_data
      storage_data := storage_data
      network_data := network_data
      system_data := system_data }

/-- Models `history_repo/mod.rs` `HistoryRepo::save_snapshots`: on an empty
batch return at once without opening a transaction; otherwise one
transaction upserts the `system_info` singleton and inserts every snapshot.
`commitOk` is the outcome of the final `tx.commit()`; `None` models an
error (serialize or commit), in which case the transaction leaves no trace
in the database. -/
def save_snapshots (c : Codec) (commitOk : Bool) (snapshots : List FullSystemSnapshot)
    (system_info : SystemInfo) (db : Db) : Option Db :=
  if snapshots.isEmpty then some db
  else do
    let info_blob ← c.encSystemInfo system_info
    let rows ← snapshots.mapM (encode_snapshot_row c)
    if commitOk then
      some { db with system_info := some info_blob, raw := db.raw ++ rows }
    else none

/-- Models `history_repo/mod.rs` `HistoryRepo::prune_old_data`:
`DELETE FROM system_history WHERE created_at < now - retention_ms`. -/
def prune_old_data (now_ms retention_ms : Int) (db : Db) : Db :=
  { db with raw := db.raw.filter (fun r => !decide (r.created_at < now_ms - retention_ms)) }

/-- Models `history_repo/mod.rs` `HistoryRepo::prune_aggregated_old_data`
(also returns the deleted row count). -/
def prune_aggregated_old_data (now_ms retention_ms : Int) (db : Db) : Db × Nat :=
  ({ db with
      agg := db.agg.filter (fun r => !decide (r.created_at < now_ms - retention_ms)) },
    (db.agg.filter (fun r => decide (r.created_at < now_ms - retention_ms))).length)

/-- Models `history_repo/mod.rs` `HistoryRepo::get_stored_system_info`:
`Ok(None)` when the singleton row is absent, a decode error otherwise
propagates (outer `none`). -/
def get_stored_system_info (c : Codec) (db : Db) : Option (Option SystemInfo) :=
  match db.system_info with
  | none => some none
  | some bytes =>
    match c.decSystemInfo bytes with
    | some info => some (some info)
    | none => none

/-- Models `history_repo/mod.rs` `HistoryRepo::get_recent_snapshots`:
the last `limit` rows by rowid, oldest first, each parsed. -/
def get_recent_snapshots (c : Codec) (db : Db) (limit : Nat) :
    Option (Option SystemInfo × List FullSystemSnapshot) :=
  match get_stored_system_info c db with
  | none => none
  | some stored_info =>
    some (stored_info,
      ((db.raw.reverse.take limit).reverse).map (parse_snapshot_row c))

/-- Models `history_repo/mod.rs` `HistoryRepo::get_raw_snapshots_by_time_range`:
raw rows with `created_at ∈ [from_ts, to_ts)` ascending by `created_at`. -/
def get_raw_snapshots_by_time_range (c : Codec) (db : Db) (from_ts to_ts : Int) :
    List FullSystemSnapshot :=
  (sortByKey (fun r : RawRow => r.created_at)
      (db.raw.filter
        (fun r => decide (from_ts ≤ r.created_at ∧ r.created_at < to_ts)))).map
    (parse_snapshot_row c)

/-- Models `HistoryRepo::get_aggregated_snapshots_by_time_range`: aggregated
rows with `created_at ∈ [from_ts, to_ts)` at the given resolution,
ascending by `created_at`. -/
def get_aggregated_snapshots_by_time_range (c : Codec) (db : Db)
    (from_ts to_ts : Int) (resolution_seconds : Int) : List AggregatedSnapshot :=
  (sortByKey (fun r : AggRow => r.created_at)
      (db.agg.filter
        (fun r =>
          decide (from_ts ≤ r.created_at ∧ r.created_at < to_ts ∧
            r.resolution_seconds = resolution_seconds)))).map
    (parse_aggregated_row c)

/-- Models `HistoryRepo::save_aggregated_snapshot`: encode the four blob
columns and insert one `system_history_aggregated` row (`None` models a
serialize error). -/
def save_aggregated_snapshot (c : Codec) (db : Db) (agg : AggregatedSnapshot) :
    Option Db := do
  let container_data := with_version_byte BLOB_VERSION (← c.encContainers agg.containers)
  let storage_data := with_version_byte BLOB_VERSION (← c.encStorage agg.storage)
  let network_data := with_version_byte BLOB_VERSION (← c.encNetwork agg.network)
  let system_data :=
    with_version_byte BLOB_VERSION_SYSTEM_DYNAMIC (← c.encSystemDynamic agg.system)
  some
    { db with
        agg := db.agg ++
          [{ created_at := agg.created_at
             resolution_seconds := agg.resolution_seconds
             cpu_load_avg := agg.cpu_load_avg
             cpu_load_min := agg.cpu_load_min
             cpu_load_max := agg.cpu_load_max
             memory_used_avg := agg.memory_used_avg
             memory_used_min := agg.memory_used_min
             memory_used_max := agg.memory_used_max
             container_data := container_data
             storage_data := storage_data
             network_data := network_data
             system_data := system_data }] }

/-- Models `HistoryRepo::get_min_raw_created_at_before`:
`SELECT MIN(created_at) FROM system_history WHERE created_at < cutoff`. -/
def get_min_raw_created_at_before (db : Db) (cutoff_ts : Int) : Option Int :=
  match (db.raw.filter (fun r => decide (r.created_at < cutoff_ts))).map
      (fun r => r.created_at) with
  | [] => none
  | x :: xs => some (xs.foldl min x)

/-- Models `HistoryRepo::get_min_aggregated_created_at_before`. -/
def get_min_aggregated_created_at_before (db : Db) (cutoff_ts : Int)
    (resolution_seconds : Int) : Option Int :=
  match (db.agg.filter
      (fun r =>
        decide (r.created_at < cutoff_ts ∧
          r.resolution_seconds = resolution_seconds))).map
      (fun r => r.created_at) with
  | [] => none
  | x :: xs => some (xs.foldl min x)

/-- Models `HistoryRepo::delete_raw_range`: delete raw rows with
`created_at ∈ [from_ts, to_ts)`, returning the affected row count. -/
def delete_raw_range (db : Db) (from_ts to_ts : Int) : Db × Nat :=
  ({ db with
      raw := db.raw.filter
        (fun r => !decide (from_ts ≤ r.created_at ∧ r.created_at < to_ts)) },
    (db.raw.filter
      (fun r => decide (from_ts ≤ r.created_at ∧ r.created_at < to_ts))).length)

/-- Models `HistoryRepo::delete_aggregated_range`. -/
def delete_aggregated_range (db : Db) (from_ts to_ts : Int)
    (resolution_seconds : Int) : Db × Nat :=
  ({ db with
      agg := db.agg.filter
        (fun r =>
          !decide (from_ts ≤ r.created_at ∧ r.created_at < to_ts ∧
            r.resolution_seconds = resolution_seconds)) },
    (db.agg.filter
      (fun r =>
        decide (from_ts ≤ r.created_at ∧ r.created_at < to_ts ∧
          r.resolution_seconds = resolution_seconds))).length)

/-- Bucket key used by `downsample_snapshots`:
`(s.timestamp as i64 / resolution_ms) * resolution_ms`. -/
def downsample_bucket (resolution_ms : Int) (s : FullSystemSnapshot) : Int :=
  (Int.tdiv (wrap_u64_to_i64 s.timestamp) resolution_ms) * resolution_ms

/-- Insert into a `BTreeMap` modelled as an association list sorted
ascending by key; an existing key's value is replaced. -/
def btreeInsert (k : Int) (v : FullSystemSnapshot) :
    List (Int × FullSystemSnapshot) → List (Int × FullSystemSnapshot)
  | [] => [(k, v)]
  | (k0, v0) :: rest =>
    if k < k0 then (k, v) :: (k0, v0) :: rest
    else if k = k0 then (k, v) :: rest
    else (k0, v0) :: btreeInsert k v rest

/-- Models `history_repo/mod.rs` `downsample_snapshots`: keep the last
snapshot of each `resolution_ms` bucket, output ascending by bucket key. -/
def downsample_snapshots (snapshots : List FullSystemSnapshot)
    (resolution_ms : Int) : List FullSystemSnapshot :=
  if snapshots.isEmpty ∨ resolution_ms ≤ 0 then snapshots
  else
    ((snapshots.foldl
        (fun m s => btreeInsert (downsample_bucket resolution_ms s) s m)
        [])).map Prod.snd

/-- The aggregated-side slice of `HistoryRepo::get_history`: aggregated rows
in `[from_ts, min to_ts raw_cutoff_ts)` (only when `from_ts < raw_cutoff_ts`)
at resolution 300 or 60, each projected to a snapshot. -/
def history_agg_part (c : Codec) (db : Db) (from_ts to_ts : Int)
    (resolution_secs : Nat) (raw_cutoff_ts : Int) : List FullSystemSnapshot :=
  if from_ts < raw_cutoff_ts then
    let agg_to := min to_ts raw_cutoff_ts
    let agg_resolution : Int := if 300 ≤ resolution_secs then 300 else 60
    (get_aggregated_snapshots_by_time_range c db from_ts agg_to agg_resolution).map
      aggregated_to_snapshot
  else []

/-- The raw fetch of `HistoryRepo::get_history`: raw rows in
`[max from_ts raw_cutoff_ts, to_ts)`, empty unless `to_ts > raw_cutoff_ts`. -/
def history_raw_fetch (c : Codec) (db : Db) (from_ts to_ts raw_cutoff_ts : Int) :
    List FullSystemSnapshot :=
  if raw_cutoff_ts < to_ts then
    get_raw_snapshots_by_time_range c db (max from_ts raw_cutoff_ts) to_ts
  else []

/-- The raw-side slice of `HistoryRepo::get_history`: the raw fetch,
downsampled by last-in-bucket when `resolution_secs > 1`. -/
def history_raw_part (c : Codec) (db : Db) (from_ts to_ts : Int)
    (resolution_secs : Nat) (raw_cutoff_ts : Int) : List FullSystemSnapshot :=
  if 1 < resolution_secs ∧
      ¬(history_raw_fetch c db from_ts to_ts raw_cutoff_ts).isEmpty then
    downsample_snapshots (history_raw_fetch c db from_ts to_ts raw_cutoff_ts)
      ((resolution_secs : Int) * 1000)
  else history_raw_fetch c db from_ts to_ts raw_cutoff_ts

/-- Models `HistoryRepo::get_history`: merge the aggregated (older) and raw
(recent) slices and sort by `timestamp` ascending. -/
def get_history (c : Codec) (db : Db) (from_ts to_ts : Int)
    (resolution_secs : Nat) (raw_cutoff_ts : Int) : List FullSystemSnapshot :=
  sortByKey (fun s : FullSystemSnapshot => s.timestamp)
    (history_agg_part c db from_ts to_ts resolution_secs raw_cutoff_ts ++
      history_raw_part c db from_ts to_ts resolution_secs raw_cutoff_ts)

/-- `aggregation_worker.rs` `MS_PER_MINUTE`. -/
def MS_PER_MINUTE : Int := 60000

/-- `aggregation_worker.rs` `MS_PER_5_MINUTES`. -/
def MS_PER_5_MINUTES : Int := 300000

/-- `aggregation_worker.rs` `RESOLUTION_1MIN`. -/
def RESOLUTION_1MIN : Int := 60

/-- `aggregation_worker.rs` `RESOLUTION_5MIN`. -/
def RESOLUTION_5MIN : Int := 300

/-- `aggregation_worker.rs` `AggregationWorkerConfig`. -/
structure AggregationWorkerConfig where
  aggregation_interval_secs : Nat
  raw_retention_hours : Nat
  minute_retention_hours : Nat
  retention_days : Nat
  vacuum_schedule : Option String
  vacuum_interval_secs : Nat

/-- Phase A while-loop of `run_one_tick`: roll raw rows into 1-min buckets
while `bucket_start + MS_PER_MINUTE ≤ cutoff_raw`, deleting each bucket's
raw rows whether or not it was empty. `None` models a propagated repo
error. -/
def aggLoopA (c : Codec) (cutoff_raw : Int) (bucket_start : Int) (db : Db) :
    Option Db :=
  if h : bucket_start + MS_PER_MINUTE ≤ cutoff_raw then
    let bucket_end := bucket_start + MS_PER_MINUTE
    let snapshots := get_raw_snapshots_by_time_range c db bucket_start bucket_end
    match aggregate_snapshots snapshots bucket_start RESOLUTION_1MIN with
    | some agg =>
      match save_aggregated_snapshot c db agg with
      | none => none
      | some db1 =>
        aggLoopA c cutoff_raw (bucket_start + MS_PER_MINUTE)
          (delete_raw_range db1 bucket_start bucket_end).1
    | none =>
      aggLoopA c cutoff_raw (bucket_start + MS_PER_MINUTE)
        (delete_raw_range db bucket_start bucket_end).1
  else some db
termination_by (cutoff_raw - bucket_start).toNat
decreasing_by
  all_goals
    simp only [MS_PER_MINUTE] at h ⊢
    omega

/-- Phase B while-loop of `run_one_tick`: roll 1-min rows into 5-min buckets
while `bucket_start + MS_PER_5_MINUTES ≤ cutoff_1min`, deleting the source
1-min rows of each bucket. -/
def aggLoopB (c : Codec) (cutoff_1min : Int) (bucket_start : Int) (db : Db) :
    Option Db :=
  if h : bucket_start + MS_PER_5_MINUTES ≤ cutoff_1min then
    let bucket_end := bucket_start + MS_PER_5_MINUTES
    let one_min_rows :=
      get_aggregated_snapshots_by_time_range c db bucket_start bucket_end
        RESOLUTION_1MIN
    match aggregate_aggregated_snapshots one_min_rows bucket_start RESOLUTION_5MIN with
    | some agg5 =>
      match save_aggregated_snapshot c db agg5 with
      | none => none
      | some db1 =>
        aggLoopB c cutoff_1min (bucket_start + MS_PER_5_MINUTES)
          (delete_aggregated_range db1 bucket_start bucket_end RESOLUTION_1MIN).1
    | none =>
      aggLoopB c cutoff_1min (bucket_start + MS_PER_5_MINUTES)
        (delete_aggregated_range db bucket_start bucket_end RESOLUTION_1MIN).1
  else some db
termination_by (cutoff_1min - bucket_start).toNat
decreasing_by
  all_goals
    simp only [MS_PER_5_MINUTES] at h ⊢
    omega

/-- Models `aggregation_worker.rs` `run_one_tick`: one aggregation pass
(raw→1-min, 1-min→5-min, prune). `retention_ms` is the repository's
`retention_days` in milliseconds; the source's two in-function wall-clock
reads are both modelled by `now_ms`. `None` models a propagated repo
error (the tick is retried at the next firing). -/
def run_one_tick (c : Codec) (config : AggregationWorkerConfig)
    (retention_ms : Int) (now_ms : Int) (db : Db) : Option Db :=
  let cutoff_raw := now_ms - (config.raw_retention_hours : Int) * 3600 * 1000
  match get_min_raw_created_at_before db cutoff_raw with
  | none => some db
  | some min_ts =>
    match aggLoopA c cutoff_raw ((Int.tdiv min_ts MS_PER_MINUTE) * MS_PER_MINUTE) db with
    | none => none
    | some db1 =>
      let cutoff_1min := now_ms - (config.minute_retention_hours : Int) * 3600 * 1000
      match get_min_aggregated_created_at_before db1 cutoff_1min RESOLUTION_1MIN with
      | none =>
        some (prune_aggregated_old_data now_ms retention_ms
          (prune_old_data now_ms retention_ms db1)).1
      | some min_1min_ts =>
        match aggLoopB c cutoff_1min
            ((Int.tdiv min_1min_ts MS_PER_5_MINUTES) * MS_PER_5_MINUTES) db1 with
        | none => none
        | some db2 =>
          some (prune_aggregated_old_data now_ms retention_ms
            (prune_old_data now_ms retention_ms db2)).1

/-- State of the history writer task of `worker.rs`: the in-memory batch
buffer, the `snapshots_saved_total` counter and the database. -/
structure WriterState where
  buffer : List FullSystemSnapshot
  counter : Nat
  db : Db
deriving DecidableEq

/-- Models `worker.rs` `flush_buffer`: an empty buffer returns at once with
no transaction; otherwise `save_snapshots` runs, and only on its success is
`snapshots_saved_total` incremented by the batch size and the buffer
cleared. The `Bool` is `false` when the flush returned the save error. -/
def flush_buffer (c : Codec) (commitOk : Bool) (system_info : SystemInfo)
    (st : WriterState) : WriterState × Bool :=
  if st.buffer.isEmpty then (st, true)
  else
    match save_snapshots c commitOk st.buffer system_info st.db with
    | none => (st, false)
    | some db1 =>
      ({ buffer := [], counter := st.counter + st.buffer.length, db := db1 }, true)

/-- The property claimed of every snapshot read back from the store: only
`timestamp`, `cpu.usage_percent`, `ram.used` and the blob-backed columns
carry stored data; every other CPU/RAM scalar is defaulted. -/
def blank_scalar_fields (s : FullSystemSnapshot) : Prop :=
  s.cpu.model = "" ∧ s.cpu.physical_cores = 0 ∧ s.cpu.logical_cores = 0 ∧
  s.cpu.temperature = 0 ∧ s.ram.total = 0 ∧ s.ram.available = 0 ∧
  s.ram.usage_percent = 0

/-- Empty storage sample (test fixture). -/
def emptyStorage : StorageStats := { partitions := [], disks := [] }

/-- Empty network sample (test fixture). -/
def emptyNetwork : NetworkStats := { interfaces := [] }

/-- A concrete codec for witnesses: every encoder emits the empty payload,
every decoder fails (exercising the documented default-substitution read
path). -/
def trivialCodec : Codec :=
  { encContainers := fun _ => some []
    encStorage := fun _ => some []
    encNetwork := fun _ => some []
    encSystemDynamic := fun _ => some []
    encSystemInfo := fun _ => some []
    decContainers := fun _ => none
    decStorage := fun _ => none
    decNetwork := fun _ => none
    decSystemDynamic := fun _ => none
    decSystemFull := fun _ => none
    decSystemInfo := fun _ => none }

/-- A plain snapshot fixture with the given timestamp, CPU usage and RAM
used, all other fields defaulted. -/
def mkPlainSnapshot (ts : Nat) (cpu : ℚ) (used : Nat) : FullSystemSnapshot :=
  { timestamp := ts
    cpu :=
      { model := "", physical_cores := 0, logical_cores := 0
        usage_percent := cpu, temperature := 0 }
    ram := { total := 0, used := used, available := 0, usage_percent := 0 }
    containers := []
    storage := emptyStorage
    network := emptyNetwork
    system := defaultSystemDynamic }

/-- A 1-min aggregated-snapshot fixture for the 5-min roll-up scenario:
`cpu_load_min = avg - 1`, `cpu_load_max = avg + 1`. -/
def mk1MinAgg (created : Int) (cpuAvg : ℚ) : AggregatedSnapshot :=
  { created_at := created
    resolution_seconds := 60
    cpu_load_avg := cpuAvg
    cpu_load_min := cpuAvg - 1
    cpu_load_max := cpuAvg + 1
    memory_used_avg := 100
    memory_used_min := 90
    memory_used_max := 110
    containers := []
    storage := emptyStorage
    network := emptyNetwork
    system := defaultSystemDynamic }

/-- The five 1-min aggregates of the 5-min roll-up scenario. -/
def fiveOneMinAggs : List AggregatedSnapshot :=
  [mk1MinAgg 300000 10, mk1MinAgg 360000 20, mk1MinAgg 420000 30,
   mk1MinAgg 480000 40, mk1MinAgg 540000 50]

/-- The three raw snapshots of the 1-min bucket scenario. -/
def threeRawSnapshots : List FullSystemSnapshot :=
  [mkPlainSnapshot 60000 10 100, mkPlainSnapshot 60001 20 200,
   mkPlainSnapshot 60002 30 300]

/-- A snapshot whose `ram.used` does not fit in `i64` (counterexample
fixture). -/
def bigRamSnapshot : FullSystemSnapshot := mkPlainSnapshot 60000 10 (2 ^ 63)

/-- A `SystemInfo` fixture. -/
def exInfo : SystemInfo :=
  { os_family := "", os_manufacturer := "", os_version := ""
    system_manufacturer := "", system_model := "", processor_name := "" }

/-- The empty database fixture. -/
def emptyDb : Db := { raw := [], agg := [], system_info := none }

/-- An aggregated row far older than any retention cutoff
(counterexample fixture). -/
def oldAggRow : AggRow :=
  { created_at := 0, resolution_seconds := 60
    cpu_load_avg := 0, cpu_load_min := 0, cpu_load_max := 0
    memory_used_avg := 0, memory_used_min := 0, memory_used_max := 0
    container_data := [], storage_data := [], network_data := []
    system_data := [] }

/-- A database with no raw rows and one expired aggregated row
(counterexample fixture). -/
def dbWithOldAgg : Db := { raw := [], agg := [oldAggRow], system_info := none }

/-- The default worker configuration of the spec (test fixture). -/
def exConfig : AggregationWorkerConfig :=
  { aggregation_interval_secs := 3600, raw_retention_hours := 1
    minute_retention_hours := 24, retention_days := 3
    vacuum_schedule := none, vacuum_interval_secs := 86400 }

/-- A raw history row fixture. -/
def exRawRow : RawRow :=
  { created_at := 5000, cpu_load := 7, memory_used := 42
    container_data := [], storage_data := [], network_data := []
    system_data := [] }

/-- An aggregated history row fixture older than the raw cutoff used in
witnesses. -/
def exAggRow : AggRow :=
  { created_at := 100, resolution_seconds := 60
    cpu_load_avg := 1, cpu_load_min := 1, cpu_load_max := 1
    memory_used_avg := 1, memory_used_min := 1, memory_used_max := 1
    container_data := [], storage_data := [], network_data := []
    system_data := [] }

/-- A database with one raw and one aggregated row (witness fixture). -/
def exDb : Db := { raw := [exRawRow], agg := [exAggRow], system_info := none }

/-- A writer state with one buffered snapshot (witness fixture). -/
def exWriterState : WriterState :=
  { buffer := [mkPlainSnapshot 1000 5 50], counter := 7, db := emptyDb }

/-- A writer state with an empty buffer (witness fixture). -/
def idleWriterState : WriterState := { buffer := [], counter := 7, db := exDb }


theorem mem_insertByKey {α β : Type} [LinearOrder β] (key : α → β) (a x : α)
    (l : List α) : x ∈ insertByKey key a l ↔ x = a ∨ x ∈ l := by
  induction l with
  | nil => simp [insertByKey]
  | cons b bs ih =>
    simp only [insertByKey]
    split
    · simp only [List.mem_cons]
    · simp only [List.mem_cons, ih]
      tauto


theorem mem_sortByKey {α β : Type} [LinearOrder β] (key : α → β) (x : α)
    (l : List α) : x ∈ sortByKey key l ↔ x ∈ l := by
  induction l with
  | nil => simp [sortByKey]
  | cons b bs ih =>
    simp only [sortByKey, List.foldr_cons] at *
    rw [mem_insertByKey, ih]
    simp

theorem pairwise_insertByKey {α β : Type} [LinearOrder β] (key : α → β) (a : α)
    (l : List α) (hl : l.Pairwise (fun p q => key p ≤ key q)) :
    (insertByKey key a l).Pairwise (fun p q => key p ≤ key q) := by
  induction l with
  | nil => simp [insertByKey]
  | cons b bs ih =>
    rw [List.pairwise_cons] at hl
    simp only [insertByKey]
    split
    · rename_i hab
      rw [List.pairwise_cons]
      refine ⟨?_, List.pairwise_cons.mpr hl⟩
      intro x hx
      rcases List.mem_cons.mp hx with hxb | hxbs
      · exact hxb ▸ hab
      · exact le_trans hab (hl.1 x hxbs)
    · rename_i hab
      rw [List.pairwise_cons]
      refine ⟨?_, ih hl.2⟩
      intro x hx
      rcases (mem_insertByKey key a x bs).mp hx with hxa | hxbs
      · exact hxa ▸ le_of_not_le hab
      · exact hl.1 x hxbs

theorem pairwise_sortByKey {α β : Type} [LinearOrder β] (key : α → β)
    (l : List α) : (sortByKey key l).Pairwise (fun p q => key p ≤ key q) := by
  induction l with
  | nil => simp [sortByKey]
  | cons b bs ih => exact pairwise_insertByKey key b _ ih

theorem foldl_min_le_init {β : Type} [LinearOrder β] (x : β) (xs : List β) :
    xs.foldl min x ≤ x := by
  induction xs generalizing x with
  | nil => simp
  | cons z zs ih =>
    exact le_trans (ih (min x z)) (min_le_left x z)

theorem foldl_min_le_mem {β : Type} [LinearOrder β] (x y : β) (xs : List β)
    (hy : y ∈ xs) : xs.foldl min x ≤ y := by
  induction xs generalizing x with
  | nil => cases hy
  | cons z zs ih =>
    rcases List.mem_cons.mp hy with hyz | hyzs
    · subst hyz
      exact le_trans (foldl_min_le_init (min x y) zs) (min_le_right x y)
    · exact ih (min x z) hyzs

theorem foldl_min_mem {β : Type} [LinearOrder β] (x : β) (xs : List β) :
    xs.foldl min x ∈ x :: xs := by
  induction xs generalizing x with
  | nil => simp
  | cons z zs ih =>
    have h := ih (min x z)
    rcases List.mem_cons.mp h with h1 | h2
    · rcases min_choice x z with hx | hz
      · rw [List.foldl_cons, h1, hx]; simp
      · rw [List.foldl_cons, h1, hz]; simp
    · rw [List.foldl_cons]
      exact List.mem_cons_of_mem _ (List.mem_cons_of_mem _ h2)

theorem le_foldl_max_init {β : Type} [LinearOrder β] (x : β) (xs : List β) :
    x ≤ xs.foldl max x := by
  induction xs generalizing x with
  | nil => simp
  | cons z zs ih =>
    exact le_trans (le_max_left x z) (ih (max x z))

theorem le_foldl_max_mem {β : Type} [LinearOrder β] (x y : β) (xs : List β)
    (hy : y ∈ xs) : y ≤ xs.foldl max x := by
  induction xs generalizing x with
  | nil => cases hy
  | cons z zs ih =>
    rcases List.mem_cons.mp hy with hyz | hyzs
    · subst hyz
      exact le_trans (le_max_right x y) (le_foldl_max_init (max x y) zs)
    · exact ih (max x z) hyzs

theorem foldl_max_mem {β : Type} [LinearOrder β] (x : β) (xs : List β) :
    xs.foldl max x ∈ x :: xs := by
  induction xs generalizing x with
  | nil => simp
  | cons z zs ih =>
    have h := ih (max x z)
    rcases List.mem_cons.mp h with h1 | h2
    · rcases max_choice x z with hx | hz
      · rw [List.foldl_cons, h1, hx]; simp
      · rw [List.foldl_cons, h1, hz]; simp
    · rw [List.foldl_cons]
      exact List.mem_cons_of_mem _ (List.mem_cons_of_mem _ h2)

theorem le_tdiv_of_mul_le {m s n : Int} (hn : 0 < n) (h : m * n ≤ s) :
    m ≤ s.tdiv n := by
  rcases le_or_lt 0 s with hs | hs
  · rw [Int.tdiv_eq_ediv hs hn.le]
    exact (Int.le_ediv_iff_mul_le hn).mpr h
  · have hneg : s.tdiv n = -((-s).tdiv n) := by
      rw [← Int.neg_tdiv, neg_neg]
    rw [hneg, Int.tdiv_eq_ediv (by omega) hn.le, le_neg]
    have h2 : -s ≤ -m * n := by
      rw [neg_mul]
      omega
    calc (-s) / n ≤ (-m * n) / n := Int.ediv_le_ediv hn h2
      _ = -m := Int.mul_ediv_cancel _ hn.ne'

theorem tdiv_le_of_le_mul {s M n : Int} (hn : 0 < n) (h : s ≤ M * n) :
    s.tdiv n ≤ M := by
  rcases le_or_lt 0 s with hs | hs
  · rw [Int.tdiv_eq_ediv hs hn.le]
    calc s / n ≤ (M * n) / n := Int.ediv_le_ediv hn h
      _ = M := Int.mul_ediv_cancel _ hn.ne'
  · have hneg : s.tdiv n = -((-s).tdiv n) := by
      rw [← Int.neg_tdiv, neg_neg]
    rw [hneg, Int.tdiv_eq_ediv (by omega) hn.le, neg_le]
    rcases le_or_lt 0 M with hM | hM
    · have : 0 ≤ (-s) / n := Int.ediv_nonneg (by omega) hn.le
      omega
    · have h2 : -M * n ≤ -s := by
        rw [neg_mul]
        omega
      exact (Int.le_ediv_iff_mul_le hn).mpr h2

theorem mean_i64_between {v : List Int} (hv : v ≠ []) :
    list_min_int v ≤ mean_i64 v ∧ mean_i64 v ≤ list_max_int v := by
  match v, hv with
  | x :: xs, _ =>
    have hlen : (0 : Int) < ((x :: xs).length : Int) := by
      exact_mod_cast Nat.succ_pos xs.length
    have hmin : ∀ y ∈ x :: xs, list_min_int (x :: xs) ≤ y := by
      intro y hy
      rcases List.mem_cons.mp hy with h1 | h2
      · subst h1
        exact foldl_min_le_init y xs
      · exact foldl_min_le_mem x y xs h2
    have hmax : ∀ y ∈ x :: xs, y ≤ list_max_int (x :: xs) := by
      intro y hy
      rcases List.mem_cons.mp hy with h1 | h2
      · subst h1
        exact le_foldl_max_init y xs
      · exact le_foldl_max_mem x y xs h2
    have hsum_lo : list_min_int (x :: xs) * ((x :: xs).length : Int) ≤ (x :: xs).sum := by
      have := List.card_nsmul_le_sum (x :: xs) (list_min_int (x :: xs)) hmin
      rw [nsmul_eq_mul] at this
      linarith
    have hsum_hi : (x :: xs).sum ≤ list_max_int (x :: xs) * ((x :: xs).length : Int) := by
      have := List.sum_le_card_nsmul (x :: xs) (list_max_int (x :: xs)) hmax
      rw [nsmul_eq_mul] at this
      linarith
    constructor
    · have := le_tdiv_of_mul_le hlen hsum_lo
      simpa [mean_i64] using this
    · have := tdiv_le_of_le_mul hlen hsum_hi
      simpa [mean_i64] using this

theorem mean_f64_between {v : List ℚ} (hv : v ≠ []) :
    fold_min_q v ≤ mean_f64 v ∧ mean_f64 v ≤ fold_max_q v := by
  match v, hv with
  | x :: xs, _ =>
    have hlen : (0 : ℚ) < ((x :: xs).length : ℚ) := by
      have : 0 < (x :: xs).length := by simp
      exact_mod_cast this
    have hmin : ∀ y ∈ x :: xs, fold_min_q (x :: xs) ≤ y := by
      intro y hy
      rcases List.mem_cons.mp hy with h1 | h2
      · subst h1
        exact foldl_min_le_init y xs
      · exact foldl_min_le_mem x y xs h2
    have hmax : ∀ y ∈ x :: xs, y ≤ fold_max_q (x :: xs) := by
      intro y hy
      rcases List.mem_cons.mp hy with h1 | h2
      · subst h1
        exact le_foldl_max_init y xs
      · exact le_foldl_max_mem x y xs h2
    have hsum_lo : fold_min_q (x :: xs) * ((x :: xs).length : ℚ) ≤ (x :: xs).sum := by
      have := List.card_nsmul_le_sum (x :: xs) (fold_min_q (x :: xs)) hmin
      rw [nsmul_eq_mul] at this
      linarith
    have hsum_hi : (x :: xs).sum ≤ fold_max_q (x :: xs) * ((x :: xs).length : ℚ) := by
      have := List.sum_le_card_nsmul (x :: xs) (fold_max_q (x :: xs)) hmax
      rw [nsmul_eq_mul] at this
      linarith
    constructor
    · rw [mean_f64]
      simp only [List.isEmpty_cons, if_false, Bool.false_eq_true]
      exact (le_div_iff₀ hlen).mpr hsum_lo
    · rw [mean_f64]
      simp only [List.isEmpty_cons, if_false, Bool.false_eq_true]
      exact (div_le_iff₀ hlen).mpr hsum_hi

theorem wrap_u64_to_i64_of_lt {n : Nat} (h : n < 2 ^ 63) :
    wrap_u64_to_i64 n = (n : Int) := by
  unfold wrap_u64_to_i64
  have h63 : (2 : Nat) ^ 63 = 9223372036854775808 := by norm_num
  rw [h63] at h
  omega

theorem wrap_i64_to_u64_ne_of_lt {a b : Int} (hab : a < b) (ha : -(2 ^ 63) ≤ a)
    (hb : b < 2 ^ 63) : wrap_i64_to_u64 a ≠ wrap_i64_to_u64 b := by
  unfold wrap_i64_to_u64
  have h63 : (2 : Int) ^ 63 = 9223372036854775808 := by norm_num
  rw [h63] at ha hb
  intro h
  omega

theorem mem_btreeInsert_map_snd {k : Int} {v x : FullSystemSnapshot}
    {m : List (Int × FullSystemSnapshot)}
    (h : x ∈ (btreeInsert k v m).map Prod.snd) :
    x = v ∨ x ∈ m.map Prod.snd := by
  induction m with
  | nil =>
    simp [btreeInsert] at h
    exact Or.inl h
  | cons kv rest ih =>
    match kv with
    | (k0, v0) =>
      simp only [btreeInsert] at h
      split at h
      · simp only [List.map_cons, List.mem_cons] at h ⊢
        tauto
      · split at h
        · simp only [List.map_cons, List.mem_cons] at h ⊢
          tauto
        · simp only [List.map_cons, List.mem_cons] at h ⊢
          rcases h with h0 | h1
          · tauto
          · rcases ih h1 with h2 | h3 <;> tauto

theorem mem_downsample_foldl {snaps : List FullSystemSnapshot}
    {resolution_ms : Int} {init : List (Int × FullSystemSnapshot)}
    {x : FullSystemSnapshot}
    (h : x ∈ ((snaps.foldl
        (fun m s => btreeInsert (downsample_bucket resolution_ms s) s m)
        init)).map Prod.snd) :
    x ∈ snaps ∨ x ∈ init.map Prod.snd := by
  induction snaps generalizing init with
  | nil => exact Or.inr h
  | cons s ss ih =>
    rw [List.foldl_cons] at h
    rcases ih h with h1 | h2
    · exact Or.inl (List.mem_cons_of_mem _ h1)
    · rcases mem_btreeInsert_map_snd h2 with h3 | h4
      · exact Or.inl (h3 ▸ List.mem_cons_self s ss)
      · exact Or.inr h4

theorem mem_downsample_snapshots {snaps : List FullSystemSnapshot}
    {resolution_ms : Int} {x : FullSystemSnapshot}
    (h : x ∈ downsample_snapshots snaps resolution_ms) : x ∈ snaps := by
  unfold downsample_snapshots at h
  split at h
  · exact h
  · rcases mem_downsample_foldl h with h1 | h2
    · exact h1
    · simp at h2

theorem mem_history_agg_part {c : Codec} {db : Db} {from_ts to_ts : Int}
    {resolution_secs : Nat} {raw_cutoff_ts : Int} {s : FullSystemSnapshot}
    (hs : s ∈ history_agg_part c db from_ts to_ts resolution_secs raw_cutoff_ts) :
    ∃ row ∈ db.agg, row.created_at < raw_cutoff_ts ∧
      s = aggregated_to_snapshot (parse_aggregated_row c row) := by
  unfold history_agg_part at hs
  split at hs
  · rw [List.mem_map] at hs
    obtain ⟨a, ha, hsa⟩ := hs
    unfold get_aggregated_snapshots_by_time_range at ha
    rw [List.mem_map] at ha
    obtain ⟨row, hrow, hpa⟩ := ha
    rw [mem_sortByKey] at hrow
    rw [List.mem_filter] at hrow
    obtain ⟨hmem, hcond⟩ := hrow
    rw [decide_eq_true_iff] at hcond
    refine ⟨row, hmem, ?_, ?_⟩
    · exact lt_of_lt_of_le hcond.2.1 (min_le_right to_ts raw_cutoff_ts)
    · rw [← hsa, ← hpa]
  · simp at hs

theorem mem_history_raw_part {c : Codec} {db : Db} {from_ts to_ts : Int}
    {resolution_secs : Nat} {raw_cutoff_ts : Int} {s : FullSystemSnapshot}
    (hs : s ∈ history_raw_part c db from_ts to_ts resolution_secs raw_cutoff_ts) :
    ∃ row ∈ db.raw, raw_cutoff_ts ≤ row.created_at ∧
      s = parse_snapshot_row c row := by
  have hs2 : s ∈ history_raw_fetch c db from_ts to_ts raw_cutoff_ts := by
    unfold history_raw_part at hs
    split at hs
    · exact mem_downsample_snapshots hs
    · exact hs
  unfold history_raw_fetch at hs2
  split at hs2
  · unfold get_raw_snapshots_by_time_range at hs2
    rw [List.mem_map] at hs2
    obtain ⟨row, hrow, hps⟩ := hs2
    rw [mem_sortByKey] at hrow
    rw [List.mem_filter] at hrow
    obtain ⟨hmem, hcond⟩ := hrow
    rw [decide_eq_true_iff] at hcond
    refine ⟨row, hmem, ?_, ?_⟩
    · exact le_trans (le_max_right from_ts raw_cutoff_ts) hcond.1
    · rw [← hps]
  · simp at hs2

theorem fold_min_q_le_mem {l : List ℚ} {y : ℚ} (hy : y ∈ l) :
    fold_min_q l ≤ y := by
  match l, hy with
  | x :: xs, hy =>
    rcases List.mem_cons.mp hy with h1 | h2
    · subst h1
      exact foldl_min_le_init y xs
    · exact foldl_min_le_mem x y xs h2

theorem fold_min_q_mem {l : List ℚ} (h : l ≠ []) : fold_min_q l ∈ l := by
  match l, h with
  | x :: xs, _ => exact foldl_min_mem x xs

theorem fold_max_q_ge_mem {l : List ℚ} {y : ℚ} (hy : y ∈ l) :
    y ≤ fold_max_q l := by
  match l, hy with
  | x :: xs, hy =>
    rcases List.mem_cons.mp hy with h1 | h2
    · subst h1
      exact le_foldl_max_init y xs
    · exact le_foldl_max_mem x y xs h2

theorem fold_max_q_mem {l : List ℚ} (h : l ≠ []) : fold_max_q l ∈ l := by
  match l, h with
  | x :: xs, _ => exact foldl_max_mem x xs

theorem list_min_int_le_mem {l : List Int} {y : Int} (hy : y ∈ l) :
    list_min_int l ≤ y := by
  match l, hy with
  | x :: xs, hy =>
    rcases List.mem_cons.mp hy with h1 | h2
    · subst h1
      exact foldl_min_le_init y xs
    · exact foldl_min_le_mem x y xs h2

theorem list_min_int_mem {l : List Int} (h : l ≠ []) : list_min_int l ∈ l := by
  match l, h with
  | x :: xs, _ => exact foldl_min_mem x xs

theorem list_max_int_ge_mem {l : List Int} {y : Int} (hy : y ∈ l) :
    y ≤ list_max_int l := by
  match l, hy with
  | x :: xs, hy =>
    rcases List.mem_cons.mp hy with h1 | h2
    · subst h1
      exact le_foldl_max_init y xs
    · exact le_foldl_max_mem x y xs h2

theorem list_max_int_mem {l : List Int} (h : l ≠ []) : list_max_int l ∈ l := by
  match l, h with
  | x :: xs, _ => exact foldl_max_mem x xs

/-- Claim C6: the version-prefix codec round-trips: for every payload `p`
and every version tag `v`, `blob_payload (with_version_prefix v p) v = p`,
in particular at tag 1 (containers/storage/network) and tag 2
(`system_dynamic`). -/
theorem blob_version_roundtrip (v : Nat) (p : List Nat) :
    blob_payload (with_version_byte v p) v = p := by
  simp [with_version_byte, blob_payload]

/-- Claim C7 counterexample: decoding the legacy blob `[1]` is NOT the same
as decoding the v1 blob of payload `[1]`: the legacy blob's first byte
collides with the version tag and is stripped. -/
theorem legacy_blob_decode_cex :
    blob_payload [1] BLOB_VERSION ≠
      blob_payload (with_version_byte BLOB_VERSION [1]) BLOB_VERSION := by
  decide

/-- Claim C7 (amended): a legacy blob `p` decodes identically to the v1 blob
of the same payload, provided `p` does not itself begin with the version
byte 1 (both then decode to `p` itself). -/
theorem legacy_blob_decode_amended (p : List Nat)
    (h : p.head? ≠ some BLOB_VERSION) :
    blob_payload p BLOB_VERSION = p ∧
      blob_payload (with_version_byte BLOB_VERSION p) BLOB_VERSION = p := by
  constructor
  · match p, h with
    | [], _ => rfl
    | b :: rest, h =>
      have hb : b ≠ BLOB_VERSION := by
        intro hb
        exact h (by rw [hb]; rfl)
      simp [blob_payload, hb]
  · simp [with_version_byte, blob_payload]

/-- Witness for the amended C7 at the concrete payload `[2, 3]`. -/
theorem legacy_blob_decode_amended_witness :
    ([2, 3] : List Nat).head? ≠ some BLOB_VERSION ∧
      (blob_payload [2, 3] BLOB_VERSION = [2, 3] ∧
        blob_payload (with_version_byte BLOB_VERSION [2, 3]) BLOB_VERSION = [2, 3]) :=
  ⟨by decide, legacy_blob_decode_amended [2, 3] (by decide)⟩

/-- Claim C8: if the flush's `save_snapshots` call fails, `flush_buffer`
leaves the buffer (and the `snapshots_saved_total` counter) unchanged for a
retry at the next trigger; only on commit success is the counter
incremented by the batch size and the buffer cleared. -/
theorem flush_buffer_failure_preserves (c : Codec) (commitOk : Bool)
    (info : SystemInfo) (st : WriterState) :
    (save_snapshots c commitOk st.buffer info st.db = none →
      flush_buffer c commitOk info st = (st, false)) ∧
    (∀ db1, save_snapshots c commitOk st.buffer info st.db = some db1 →
      st.buffer ≠ [] →
      flush_buffer c commitOk info st =
        ({ buffer := [], counter := st.counter + st.buffer.length, db := db1 },
          true)) := by
  constructor
  · intro hsave
    unfold flush_buffer
    by_cases hb : st.buffer.isEmpty
    · rw [List.isEmpty_iff] at hb
      rw [hb] at hsave
      simp [save_snapshots] at hsave
    · simp only [hb, if_false, Bool.false_eq_true]
      rw [hsave]
  · intro db1 hsave hne
    unfold flush_buffer
    have hb : st.buffer.isEmpty = false := by
      rw [List.isEmpty_eq_false]
      exact hne
    simp only [hb, if_false, Bool.false_eq_true]
    rw [hsave]

/-- Witness for C8: with a failing commit, the flush reports the error and
preserves the single-snapshot buffer and the counter. -/
theorem flush_buffer_failure_preserves_witness :
    save_snapshots trivialCodec false exWriterState.buffer exInfo
        exWriterState.db = none ∧
      flush_buffer trivialCodec false exInfo exWriterState =
        (exWriterState, false) :=
  ⟨rfl,
    (flush_buffer_failure_preserves trivialCodec false exInfo exWriterState).1 rfl⟩

/-- Claim C9: `save_snapshots` with an empty batch is a no-op that leaves
the database unchanged (whatever the commit outcome would be), and a flush
with an empty buffer returns successfully with the state unchanged without
issuing any transaction (its result does not depend on the commit
outcome). -/
theorem save_snapshots_empty_noop (c : Codec) (info : SystemInfo) (db : Db)
    (st : WriterState) (h : st.buffer = []) :
    (∀ commitOk : Bool, save_snapshots c commitOk [] info db = some db) ∧
    (∀ commitOk : Bool, flush_buffer c commitOk info st = (st, true)) := by
  constructor
  · intro commitOk
    simp [save_snapshots]
  · intro commitOk
    unfold flush_buffer
    simp [h]

/-- Witness for C9 at a concrete empty-buffered writer state. -/
theorem save_snapshots_empty_noop_witness :
    idleWriterState.buffer = [] ∧
      ((∀ commitOk : Bool,
          save_snapshots trivialCodec commitOk [] exInfo exDb = some exDb) ∧
        (∀ commitOk : Bool,
          flush_buffer trivialCodec commitOk exInfo idleWriterState =
            (idleWriterState, true))) :=
  ⟨rfl, save_snapshots_empty_noop trivialCodec exInfo exDb idleWriterState rfl⟩

/-- Claim C5: every aggregated row produced by `aggregate_snapshots` from a
non-empty bucket satisfies `cpu_load_min ≤ cpu_load_avg ≤ cpu_load_max` and
`memory_used_min ≤ memory_used_avg ≤ memory_used_max` (f64 modelled as exact
rationals, so every `cpu.usage_percent` is finite). -/
theorem aggregate_snapshots_min_le_avg_le_max
    (snapshots : List FullSystemSnapshot) (b res : Int)
    (h : snapshots ≠ []) :
    ∀ r ∈ aggregate_snapshots snapshots b res,
      r.cpu_load_min ≤ r.cpu_load_avg ∧ r.cpu_load_avg ≤ r.cpu_load_max ∧
      r.memory_used_min ≤ r.memory_used_avg ∧
      r.memory_used_avg ≤ r.memory_used_max := by
  match snapshots, h with
  | s0 :: rest, _ =>
    intro r hr
    rw [Option.mem_def] at hr
    simp only [aggregate_snapshots] at hr
    have hinj := Option.some.inj hr
    subst hinj
    have hcne : (s0 :: rest).map (fun s => s.cpu.usage_percent) ≠ [] := by simp
    have hmne : (s0 :: rest).map (fun s => wrap_u64_to_i64 s.ram.used) ≠ [] := by
      simp
    dsimp only
    refine ⟨?_, ?_, ?_, ?_⟩
    · exact (mean_f64_between hcne).1
    · exact (mean_f64_between hcne).2
    · exact (mean_i64_between hmne).1
    · exact (mean_i64_between hmne).2

/-- Witness for C5 at the three-snapshot bucket fixture. -/
theorem aggregate_snapshots_min_le_avg_le_max_witness :
    threeRawSnapshots ≠ [] ∧
      ∀ r ∈ aggregate_snapshots threeRawSnapshots 60000 60,
        r.cpu_load_min ≤ r.cpu_load_avg ∧ r.cpu_load_avg ≤ r.cpu_load_max ∧
        r.memory_used_min ≤ r.memory_used_avg ∧
        r.memory_used_avg ≤ r.memory_used_max :=
  ⟨by simp [threeRawSnapshots],
    aggregate_snapshots_min_le_avg_le_max threeRawSnapshots 60000 60
      (by simp [threeRawSnapshots])⟩

/-- Claim C3: a non-empty bucket of 1-min aggregates rolls up to a row whose
`cpu_load_min`/`cpu_load_max` are the minimum/maximum of the sources'
minima/maxima, whose `cpu_load_avg` is the unweighted arithmetic mean of the
sources' averages, likewise for `memory_used` with the truncating integer
mean; and the concrete five-source scenario yields avg 30, min 9, max 51 at
`created_at = 300000`, `resolution = 300`. -/
theorem aggregate_aggregated_snapshots_minmaxavg (aggs : List AggregatedSnapshot)
    (b res : Int) (h : aggs ≠ []) :
    ((aggregate_aggregated_snapshots aggs b res).isSome ∧
      ∀ r ∈ aggregate_aggregated_snapshots aggs b res,
        r.created_at = b ∧ r.resolution_seconds = res ∧
        (∀ a ∈ aggs, r.cpu_load_min ≤ a.cpu_load_min) ∧
        (∃ a ∈ aggs, r.cpu_load_min = a.cpu_load_min) ∧
        (∀ a ∈ aggs, a.cpu_load_max ≤ r.cpu_load_max) ∧
        (∃ a ∈ aggs, r.cpu_load_max = a.cpu_load_max) ∧
        r.cpu_load_avg =
          (aggs.map (fun a => a.cpu_load_avg)).sum / (aggs.length : ℚ) ∧
        (∀ a ∈ aggs, r.memory_used_min ≤ a.memory_used_min) ∧
        (∃ a ∈ aggs, r.memory_used_min = a.memory_used_min) ∧
        (∀ a ∈ aggs, a.memory_used_max ≤ r.memory_used_max) ∧
        (∃ a ∈ aggs, r.memory_used_max = a.memory_used_max) ∧
        r.memory_used_avg =
          Int.tdiv (aggs.map (fun a => a.memory_used_avg)).sum
            (aggs.length : Int)) ∧
    ((aggregate_aggregated_snapshots fiveOneMinAggs 300000 300).isSome ∧
      ∀ r ∈ aggregate_aggregated_snapshots fiveOneMinAggs 300000 300,
        r.created_at = 300000 ∧ r.resolution_seconds = 300 ∧
        r.cpu_load_avg = 30 ∧ r.cpu_load_min = 9 ∧ r.cpu_load_max = 51) := by
  constructor
  · match aggs, h with
    | a0 :: rest, _ =>
      constructor
      · simp [aggregate_aggregated_snapshots]
      · intro r hr
        rw [Option.mem_def] at hr
        simp only [aggregate_aggregated_snapshots] at hr
        have hinj := Option.some.inj hr
        subst hinj
        dsimp only
        refine ⟨rfl, rfl, ?_, ?_, ?_, ?_, ?_, ?_, ?_, ?_, ?_, ?_⟩
        · intro a ha
          exact fold_min_q_le_mem (List.mem_map_of_mem _ ha)
        · obtain ⟨a, ha, heq⟩ := List.mem_map.mp
            (fold_min_q_mem (l := (a0 :: rest).map fun a => a.cpu_load_min)
              (by simp))
          exact ⟨a, ha, heq.symm⟩
        · intro a ha
          exact fold_max_q_ge_mem (List.mem_map_of_mem _ ha)
        · obtain ⟨a, ha, heq⟩ := List.mem_map.mp
            (fold_max_q_mem (l := (a0 :: rest).map fun a => a.cpu_load_max)
              (by simp))
          exact ⟨a, ha, heq.symm⟩
        · simp [mean_f64]
        · intro a ha
          exact list_min_int_le_mem (List.mem_map_of_mem _ ha)
        · obtain ⟨a, ha, heq⟩ := List.mem_map.mp
            (list_min_int_mem (l := (a0 :: rest).map fun a => a.memory_used_min)
              (by simp))
          exact ⟨a, ha, heq.symm⟩
        · intro a ha
          exact list_max_int_ge_mem (List.mem_map_of_mem _ ha)
        · obtain ⟨a, ha, heq⟩ := List.mem_map.mp
            (list_max_int_mem (l := (a0 :: rest).map fun a => a.memory_used_max)
              (by simp))
          exact ⟨a, ha, heq.symm⟩
        · simp [mean_i64]
  · constructor
    · rfl
    · intro r hr
      rw [Option.mem_def] at hr
      simp only [fiveOneMinAggs, mk1MinAgg, aggregate_aggregated_snapshots] at hr
      have hinj := Option.some.inj hr
      subst hinj
      dsimp only
      refine ⟨rfl, rfl, ?_, ?_, ?_⟩
      · norm_num [mean_f64]
      · norm_num [fold_min_q, min_def]
      · norm_num [fold_max_q, max_def]

/-- Witness for C3 at the five-source fixture. -/
theorem aggregate_aggregated_snapshots_minmaxavg_witness :
    fiveOneMinAggs ≠ [] ∧
      ((aggregate_aggregated_snapshots fiveOneMinAggs 300000 300).isSome ∧
        ∀ r ∈ aggregate_aggregated_snapshots fiveOneMinAggs 300000 300,
          r.created_at = 300000 ∧ r.resolution_seconds = 300 ∧
          r.cpu_load_avg = 30 ∧ r.cpu_load_min = 9 ∧ r.cpu_load_max = 51) :=
  ⟨by simp [fiveOneMinAggs],
    (aggregate_aggregated_snapshots_minmaxavg fiveOneMinAggs 300000 300
      (by simp [fiveOneMinAggs])).2⟩

/-- Claim C4 counterexample: for a bucket whose single snapshot has
`ram.used = 2 ^ 63` (not representable in `i64`), the produced row's
`memory_used_min` is the wrapped value `-(2 ^ 63)`, not the minimum `2 ^ 63`
of the `ram.used` values as the claim states. -/
theorem aggregate_snapshots_memory_wrap_cex :
    (aggregate_snapshots [bigRamSnapshot] 60000 60).map
        AggregatedSnapshot.memory_used_min = some (-(2 ^ 63)) ∧
      (-(2 ^ 63) : Int) ≠ ((2 ^ 63 : Nat) : Int) := by
  constructor
  · decide
  · decide

/-- Claim C4 (amended): for every non-empty bucket of raw snapshots whose
`ram.used` values are representable in `i64` (`< 2 ^ 63`), the produced row
carries the bucket-start `created_at`, the given resolution, the
mean/minimum/maximum of `cpu.usage_percent` (f64 as exact rationals) and the
truncating-division integer mean / minimum / maximum of `ram.used`; the
concrete three-snapshot scenario yields `cpu_load_{avg,min,max} = 20/10/30`
and `memory_used_{avg,min,max} = 200/100/300` at `created_at = 60000`,
`resolution = 60`. -/
theorem aggregate_snapshots_minmaxavg (snapshots : List FullSystemSnapshot)
    (b res : Int) (h : snapshots ≠ [])
    (h2 : ∀ s ∈ snapshots, s.ram.used < 2 ^ 63) :
    ((aggregate_snapshots snapshots b res).isSome ∧
      ∀ r ∈ aggregate_snapshots snapshots b res,
        r.created_at = b ∧ r.resolution_seconds = res ∧
        (∀ s ∈ snapshots, r.cpu_load_min ≤ s.cpu.usage_percent) ∧
        (∃ s ∈ snapshots, r.cpu_load_min = s.cpu.usage_percent) ∧
        (∀ s ∈ snapshots, s.cpu.usage_percent ≤ r.cpu_load_max) ∧
        (∃ s ∈ snapshots, r.cpu_load_max = s.cpu.usage_percent) ∧
        r.cpu_load_avg =
          (snapshots.map (fun s => s.cpu.usage_percent)).sum /
            (snapshots.length : ℚ) ∧
        (∀ s ∈ snapshots, r.memory_used_min ≤ (s.ram.used : Int)) ∧
        (∃ s ∈ snapshots, r.memory_used_min = (s.ram.used : Int)) ∧
        (∀ s ∈ snapshots, (s.ram.used : Int) ≤ r.memory_used_max) ∧
        (∃ s ∈ snapshots, r.memory_used_max = (s.ram.used : Int)) ∧
        r.memory_used_avg =
          Int.tdiv (snapshots.map (fun s => (s.ram.used : Int))).sum
            (snapshots.length : Int)) ∧
    ((aggregate_snapshots threeRawSnapshots 60000 60).isSome ∧
      ∀ r ∈ aggregate_snapshots threeRawSnapshots 60000 60,
        r.created_at = 60000 ∧ r.resolution_seconds = 60 ∧
        r.cpu_load_avg = 20 ∧ r.cpu_load_min = 10 ∧ r.cpu_load_max = 30 ∧
        r.memory_used_avg = 200 ∧ r.memory_used_min = 100 ∧
        r.memory_used_max = 300) := by
  constructor
  · match snapshots, h, h2 with
    | s0 :: rest, _, h2 =>
      constructor
      · simp [aggregate_snapshots]
      · intro r hr
        rw [Option.mem_def] at hr
        simp only [aggregate_snapshots] at hr
        have hinj := Option.some.inj hr
        subst hinj
        dsimp only
        have hmap : (s0 :: rest).map (fun s => wrap_u64_to_i64 s.ram.used) =
            (s0 :: rest).map (fun s => (s.ram.used : Int)) :=
          List.map_congr_left (fun s hs => wrap_u64_to_i64_of_lt (h2 s hs))
        rw [hmap]
        refine ⟨rfl, rfl, ?_, ?_, ?_, ?_, ?_, ?_, ?_, ?_, ?_, ?_⟩
        · intro s hs
          exact fold_min_q_le_mem (List.mem_map_of_mem _ hs)
        · obtain ⟨s, hs, heq⟩ := List.mem_map.mp
            (fold_min_q_mem
              (l := (s0 :: rest).map fun s => s.cpu.usage_percent) (by simp))
          exact ⟨s, hs, heq.symm⟩
        · intro s hs
          exact fold_max_q_ge_mem (List.mem_map_of_mem _ hs)
        · obtain ⟨s, hs, heq⟩ := List.mem_map.mp
            (fold_max_q_mem
              (l := (s0 :: rest).map fun s => s.cpu.usage_percent) (by simp))
          exact ⟨s, hs, heq.symm⟩
        · simp [mean_f64]
        · intro s hs
          exact list_min_int_le_mem (List.mem_map_of_mem _ hs)
        · obtain ⟨s, hs, heq⟩ := List.mem_map.mp
            (list_min_int_mem
              (l := (s0 :: rest).map fun s => (s.ram.used : Int)) (by simp))
          exact ⟨s, hs, heq.symm⟩
        · intro s hs
          exact list_max_int_ge_mem (List.mem_map_of_mem _ hs)
        · obtain ⟨s, hs, heq⟩ := List.mem_map.mp
            (list_max_int_mem
              (l := (s0 :: rest).map fun s => (s.ram.used : Int)) (by simp))
          exact ⟨s, hs, heq.symm⟩
        · simp [mean_i64]
  · constructor
    · rfl
    · intro r hr
      rw [Option.mem_def] at hr
      simp only [threeRawSnapshots, mkPlainSnapshot, aggregate_snapshots] at hr
      have hinj := Option.some.inj hr
      subst hinj
      dsimp only
      refine ⟨rfl, rfl, ?_, ?_, ?_, ?_, ?_, ?_⟩
      · norm_num [mean_f64]
      · norm_num [fold_min_q, min_def]
      · norm_num [fold_max_q, max_def]
      · decide
      · decide
      · decide

/-- Witness for the amended C4 at the three-snapshot fixture. -/
theorem aggregate_snapshots_minmaxavg_witness :
    (threeRawSnapshots ≠ [] ∧ ∀ s ∈ threeRawSnapshots, s.ram.used < 2 ^ 63) ∧
      ((aggregate_snapshots threeRawSnapshots 60000 60).isSome ∧
        ∀ r ∈ aggregate_snapshots threeRawSnapshots 60000 60,
          r.created_at = 60000 ∧ r.resolution_seconds = 60 ∧
          r.cpu_load_avg = 20 ∧ r.cpu_load_min = 10 ∧ r.cpu_load_max = 30 ∧
          r.memory_used_avg = 200 ∧ r.memory_used_min = 100 ∧
          r.memory_used_max = 300) :=
  ⟨⟨by simp [threeRawSnapshots], by decide⟩,
    (aggregate_snapshots_minmaxavg threeRawSnapshots 60000 60
      (by simp [threeRawSnapshots]) (by decide)).2⟩

/-- Claim C1 counterexample: with no raw rows at all and one aggregated row
older than every retention cutoff, `run_one_tick` returns `Ok` with the
database unchanged — the expired aggregated row survives the tick, although
the claim requires Phase C retention (`prune` of raw and aggregated rows
older than `cutoff_retention`) to run before returning. -/
theorem run_one_tick_skips_retention_cex :
    run_one_tick trivialCodec exConfig 259200000 1000000000000 dbWithOldAgg =
        some dbWithOldAgg ∧
      oldAggRow ∈ dbWithOldAgg.agg ∧
      oldAggRow.created_at < 1000000000000 - 259200000 := by
  refine ⟨rfl, ?_, ?_⟩
  · simp [dbWithOldAgg]
  · decide

/-- Claim C1 (amended): when `min_raw_ts_before(cutoff_raw)` is `None`, the
tick returns immediately with the database unchanged — Phase B and the
Phase C retention pruning do not run on such a tick. -/
theorem run_one_tick_no_old_raw_returns_unchanged (c : Codec)
    (config : AggregationWorkerConfig) (retention_ms now_ms : Int) (db : Db)
    (h : get_min_raw_created_at_before db
        (now_ms - (config.raw_retention_hours : Int) * 3600 * 1000) = none) :
    run_one_tick c config retention_ms now_ms db = some db := by
  simp only [run_one_tick, h]

/-- Witness for the amended C1 at the empty database. -/
theorem run_one_tick_no_old_raw_returns_unchanged_witness :
    get_min_raw_created_at_before emptyDb
        (1000000000000 - ((exConfig.raw_retention_hours : Int) * 3600 * 1000)) =
        none ∧
      run_one_tick trivialCodec exConfig 259200000 1000000000000 emptyDb =
        some emptyDb :=
  ⟨rfl,
    run_one_tick_no_old_raw_returns_unchanged trivialCodec exConfig 259200000
      1000000000000 emptyDb rfl⟩

/-- Claim C2: for every query, the list returned by `get_history` is sorted
ascending by `timestamp`, and no timestamp occurs both as an element of the
aggregated part (rows with `created_at < raw_cutoff_ts`) and as an element
of the raw part (rows with `created_at ≥ raw_cutoff_ts`); the stored
`created_at` values are assumed to be in `i64` range, as the schema
guarantees. -/
theorem get_history_sorted_and_disjoint (c : Codec) (db : Db)
    (from_ts to_ts : Int) (resolution_secs : Nat) (raw_cutoff_ts : Int)
    (hft : from_ts < to_ts)
    (hraw : ∀ r ∈ db.raw, -(2 ^ 63) ≤ r.created_at ∧ r.created_at < 2 ^ 63)
    (hagg : ∀ a ∈ db.agg, -(2 ^ 63) ≤ a.created_at ∧ a.created_at < 2 ^ 63) :
    (get_history c db from_ts to_ts resolution_secs raw_cutoff_ts).Pairwise
      (fun s1 s2 => s1.timestamp ≤ s2.timestamp) ∧
    ∀ s1 ∈ history_agg_part c db from_ts to_ts resolution_secs raw_cutoff_ts,
      ∀ s2 ∈ history_raw_part c db from_ts to_ts resolution_secs raw_cutoff_ts,
        s1.timestamp ≠ s2.timestamp := by
  constructor
  · exact pairwise_sortByKey (fun s : FullSystemSnapshot => s.timestamp) _
  · intro s1 h1 s2 h2
    obtain ⟨rowA, hmemA, hltA, hsA⟩ := mem_history_agg_part h1
    obtain ⟨rowR, hmemR, hgeR, hsR⟩ := mem_history_raw_part h2
    have ht1 : s1.timestamp = wrap_i64_to_u64 rowA.created_at := by
      rw [hsA]
      rfl
    have ht2 : s2.timestamp = wrap_i64_to_u64 rowR.created_at := by
      rw [hsR]
      rfl
    rw [ht1, ht2]
    exact wrap_i64_to_u64_ne_of_lt (lt_of_lt_of_le hltA hgeR)
      (hagg rowA hmemA).1 (hraw rowR hmemR).2

/-- Witness for C2 at a two-row database with `raw_cutoff_ts = 1000`. -/
theorem get_history_sorted_and_disjoint_witness :
    ((0 : Int) < 10000 ∧
      (∀ r ∈ exDb.raw, -(2 ^ 63) ≤ r.created_at ∧ r.created_at < 2 ^ 63) ∧
      (∀ a ∈ exDb.agg, -(2 ^ 63) ≤ a.created_at ∧ a.created_at < 2 ^ 63)) ∧
      ((get_history trivialCodec exDb 0 10000 60 1000).Pairwise
        (fun s1 s2 => s1.timestamp ≤ s2.timestamp) ∧
      ∀ s1 ∈ history_agg_part trivialCodec exDb 0 10000 60 1000,
        ∀ s2 ∈ history_raw_part trivialCodec exDb 0 10000 60 1000,
          s1.timestamp ≠ s2.timestamp) :=
  ⟨⟨by decide, by decide, by decide⟩,
    get_history_sorted_and_disjoint trivialCodec exDb 0 10000 60 1000
      (by decide) (by decide) (by decide)⟩

/-- Claim C10: every snapshot read back from the store — via `get_history`,
`get_recent_snapshots` or `get_raw_snapshots_by_time_range` — carries stored
data only in `timestamp`, `cpu.usage_percent`, `ram.used` and the
blob-backed columns: `cpu.model` is empty and the remaining CPU/RAM scalars
are zero, and the same holds for snapshots projected from aggregated
rows. -/
theorem read_back_only_stored_columns :
    (∀ (c : Codec) (row : RawRow),
      blank_scalar_fields (parse_snapshot_row c row)) ∧
    (∀ agg : AggregatedSnapshot,
      blank_scalar_fields (aggregated_to_snapshot agg)) ∧
    (∀ (c : Codec) (db : Db) (from_ts to_ts : Int) (resolution_secs : Nat)
        (raw_cutoff_ts : Int),
      ∀ s ∈ get_history c db from_ts to_ts resolution_secs raw_cutoff_ts,
        blank_scalar_fields s) ∧
    (∀ (c : Codec) (db : Db) (limit : Nat) (info : Option SystemInfo)
        (out : List FullSystemSnapshot),
      get_recent_snapshots c db limit = some (info, out) →
      ∀ s ∈ out, blank_scalar_fields s) ∧
    (∀ (c : Codec) (db : Db) (from_ts to_ts : Int),
      ∀ s ∈ get_raw_snapshots_by_time_range c db from_ts to_ts,
        blank_scalar_fields s) := by
  have hp : ∀ (c : Codec) (row : RawRow),
      blank_scalar_fields (parse_snapshot_row c row) := by
    intro c row
    exact ⟨rfl, rfl, rfl, rfl, rfl, rfl, rfl⟩
  have ha : ∀ agg : AggregatedSnapshot,
      blank_scalar_fields (aggregated_to_snapshot agg) := by
    intro agg
    exact ⟨rfl, rfl, rfl, rfl, rfl, rfl, rfl⟩
  have hraw : ∀ (c : Codec) (db : Db) (from_ts to_ts : Int),
      ∀ s ∈ get_raw_snapshots_by_time_range c db from_ts to_ts,
        blank_scalar_fields s := by
    intro c db from_ts to_ts s hs
    unfold get_raw_snapshots_by_time_range at hs
    rw [List.mem_map] at hs
    obtain ⟨row, _, hrow⟩ := hs
    exact hrow ▸ hp c row
  refine ⟨hp, ha, ?_, ?_, hraw⟩
  · intro c db from_ts to_ts resolution_secs raw_cutoff_ts s hs
    unfold get_history at hs
    rw [mem_sortByKey] at hs
    rcases List.mem_append.mp hs with hsa | hsr
    · obtain ⟨row, _, _, heq⟩ := mem_history_agg_part hsa
      exact heq ▸ ha (parse_aggregated_row c row)
    · obtain ⟨row, _, _, heq⟩ := mem_history_raw_part hsr
      exact heq ▸ hp c row
  · intro c db limit info out heq s hs
    unfold get_recent_snapshots at heq
    cases hinfo : get_stored_system_info c db with
    | none =>
      rw [hinfo] at heq
      simp at heq
    | some si =>
      rw [hinfo] at heq
      have hpair := Option.some.inj heq
      rw [Prod.ext_iff] at hpair
      obtain ⟨-, hout⟩ := hpair
      dsimp only at hout
      rw [← hout] at hs
      rw [List.mem_map] at hs
      obtain ⟨row, _, hrow⟩ := hs
      exact hrow ▸ hp c row

/-- Witness for C10: the parsed fixture row is among the raw range reads and
has all non-stored scalar fields defaulted. -/
theorem read_back_only_stored_columns_witness :
    parse_snapshot_row trivialCodec exRawRow ∈
        get_raw_snapshots_by_time_range trivialCodec exDb 0 10000 ∧
      blank_scalar_fields (parse_snapshot_row trivialCodec exRawRow) :=
  ⟨by decide,
    read_back_only_stored_columns.2.2.2.2 trivialCodec exDb 0 10000
      (parse_snapshot_row trivialCodec exRawRow) (by decide)⟩
